import Mathlib

/-!
Verification of the XBee C library's frame codec, AT-command layer,
command/response correlator and LR device logic, as a shallow embedding:
bytes are `Nat` values (kept below 256 at the uart boundary), machine
arithmetic is modelled with explicit `% 256`, the transport is a scripted
byte list, and stateful C code becomes explicit state passing on `XBee`.
Definitions mirror `src/xbee_api_frames.c`, `src/xbee_at_cmds.c`,
`src/xbee.c` and `src/xbee_lr.c`.
-/

set_option maxRecDepth 4000

/-! ## Wire-level constants (xbee_api_frames.h) -/

def XBEE_MAX_FRAME_DATA_SIZE : Nat := 256

def API_SEND_SUCCESS : Int := 0
def API_SEND_ERROR_TIMEOUT : Int := -1
def API_SEND_ERROR_INVALID_COMMAND : Int := -2
def API_SEND_ERROR_UART_FAILURE : Int := -3
def API_SEND_ERROR_FRAME_TOO_LARGE : Int := -4
def API_SEND_AT_CMD_ERROR : Int := -5
def API_SEND_AT_CMD_RESONSE_TIMEOUT : Int := -6

def XBEE_API_TYPE_AT_COMMAND : Nat := 0x08
def XBEE_API_TYPE_TX_REQUEST : Nat := 0x10
def XBEE_API_TYPE_MODEM_STATUS : Nat := 0x8A
def XBEE_API_TYPE_AT_RESPONSE : Nat := 0x88
def XBEE_API_TYPE_TX_STATUS : Nat := 0x89
def XBEE_API_TYPE_LR_JOIN_REQUEST : Nat := 0x14
def XBEE_API_TYPE_LR_TX_REQUEST : Nat := 0x50
def XBEE_API_TYPE_LR_RX_PACKET : Nat := 0xD0
def XBEE_API_TYPE_LR_EXPLICIT_RX_PACKET : Nat := 0xD1

/-! ## Checksum and encoder (xbee_api_frames.c) -/

/-- The `uint8_t sum` accumulator of `calculate_checksum`: a left fold adding
bytes modulo 256. -/
def sum8 (xs : List Nat) : Nat :=
  xs.foldl (fun s b => (s + b) % 256) 0

/-- `calculate_checksum(frame, len)`: sums `frame[3..len)` into a `uint8_t`
and returns `0xFF - sum`. -/
def calculate_checksum (frame : List Nat) : Nat :=
  255 - sum8 (frame.drop 3)

/-- The wire bytes built by `api_send_frame`: start delimiter `0x7E`, the
two big-endian bytes of `len(data) + 1` (type byte included, each stored
into a `uint8_t`), the frame-type byte (a `uint8_t` parameter, hence
`% 256`), the payload, and the checksum over everything from the type byte
on. -/
def encodeFrame (frame_type : Nat) (data : List Nat) : List Nat :=
  let pre := 0x7E :: ((data.length + 1) / 256 % 256) :: ((data.length + 1) % 256)
      :: (frame_type % 256) :: data
  pre ++ [calculate_checksum pre]

/-! ## Decoded frame (xbee_api_frame_t) -/

/-- `xbee_api_frame_t`: `data` holds the `length` bytes read after the
length field (the frame-type byte first); reads of `data` past `length`
see the `memset` zeros, which `List.getD _ _ 0` reproduces. -/
structure xbee_api_frame_t where
  type : Nat
  length : Nat
  checksum : Nat
  data : List Nat
deriving DecidableEq, Repr

/-! ## Transport model -/

inductive UartStatus where
  | success
  | timeout
deriving DecidableEq, Repr

/-- One `PortUartRead(buf, n, &bytes_received)` against a scripted receive
stream: if `n` bytes are queued they are consumed and returned, otherwise
the read times out having drained the queue (`bytes_received < n`, which
every caller in `api_receive_api_frame` treats as a phase error). -/
def uartRead (n : Nat) (s : List Nat) : UartStatus × List Nat × List Nat :=
  if n ≤ s.length then (UartStatus.success, s.take n, s.drop n)
  else (UartStatus.timeout, s, [])

/-- `api_receive_api_frame` on a scripted stream. Returns the C status code,
the populated frame (populated on success and on the checksum error, the
two points where the C code has filled it in), and the unconsumed stream.
The length word is `(length_bytes[0] << 8) | length_bytes[1]`, which for
bytes is `b0 * 256 + b1`; the checksum verification starts a `uint8_t`
accumulator at the checksum byte and folds the data bytes in mod 256,
accepting exactly when the result is `0xFF`. -/
def api_receive_api_frame (s : List Nat) : Int × Option xbee_api_frame_t × List Nat :=
  match uartRead 1 s with
  | (UartStatus.timeout, _, _) => (-2, none, [])
  | (UartStatus.success, d, s1) =>
    if d.headD 0 = 0x7E then
      match uartRead 2 s1 with
      | (UartStatus.timeout, _, _) => (-4, none, [])
      | (UartStatus.success, lb, s2) =>
        let len := lb.headD 0 * 256 + lb.getD 1 0
        if XBEE_MAX_FRAME_DATA_SIZE < len then (-5, none, s2)
        else
          match uartRead len s2 with
          | (UartStatus.timeout, _, _) => (-6, none, [])
          | (UartStatus.success, dat, s3) =>
            match uartRead 1 s3 with
            | (UartStatus.timeout, _, _) => (-7, none, [])
            | (UartStatus.success, cb, s4) =>
              let cksum := cb.headD 0
              let frame : xbee_api_frame_t :=
                { type := dat.headD 0, length := len, checksum := cksum, data := dat }
              if sum8 (cksum :: dat) = 255 then (0, some frame, s4)
              else (-8, some frame, s4)
    else (-3, none, s1)

/-! ## Basic lemmas about the fold, the reads and the codec -/

theorem sum8_foldl (l : List Nat) : ∀ init, init < 256 →
    l.foldl (fun s b => (s + b) % 256) init = (init + l.sum) % 256 := by
  induction l with
  | nil => intro init h; simp [Nat.mod_eq_of_lt h]
  | cons a l ih =>
    intro init h
    simp only [List.foldl_cons, List.sum_cons]
    rw [ih ((init + a) % 256) (Nat.mod_lt _ (by omega))]
    omega

theorem sum8_eq_sum (l : List Nat) : sum8 l = l.sum % 256 := by
  simpa using sum8_foldl l 0 (by omega)

theorem sum8_cons (a : Nat) (l : List Nat) : sum8 (a :: l) = (a + l.sum) % 256 := by
  rw [sum8_eq_sum]; simp [Nat.add_mod]

theorem uartRead_cons_one (a : Nat) (l : List Nat) :
    uartRead 1 (a :: l) = (UartStatus.success, [a], l) := by
  simp [uartRead]

theorem uartRead_cons_two (a b : Nat) (l : List Nat) :
    uartRead 2 (a :: b :: l) = (UartStatus.success, [a, b], l) := by
  simp [uartRead]

theorem uartRead_exact (l r : List Nat) :
    uartRead l.length (l ++ r) = (UartStatus.success, l, r) := by
  simp [uartRead, List.take_left, List.drop_left]

/-- Decoding a stream that starts with an encoded frame succeeds, consumes
exactly the encoded bytes, and yields the frame whose data is the type byte
followed by the payload. -/
theorem api_receive_encode (t : Nat) (p rest : List Nat)
    (hlen : p.length + 1 ≤ 256) :
    api_receive_api_frame (encodeFrame t p ++ rest) =
      (0, some { type := t % 256, length := p.length + 1,
                 checksum := 255 - (t % 256 + p.sum) % 256,
                 data := t % 256 :: p }, rest) := by
  have hck : calculate_checksum
      (0x7E :: ((p.length + 1) / 256 % 256) :: ((p.length + 1) % 256)
        :: (t % 256) :: p) = 255 - (t % 256 + p.sum) % 256 := by
    simp [calculate_checksum, sum8_cons]
  have hstream : encodeFrame t p ++ rest =
      0x7E :: ((p.length + 1) / 256 % 256) :: ((p.length + 1) % 256)
        :: ((t % 256 :: p) ++ ((255 - (t % 256 + p.sum) % 256) :: rest)) := by
    simp [encodeFrame, hck]
  rw [hstream]
  rw [api_receive_api_frame]
  rw [uartRead_cons_one]
  simp only [List.headD_cons, if_pos rfl]
  rw [uartRead_cons_two]
  simp only
  have hword : (p.length + 1) / 256 % 256 * 256 + (p.length + 1) % 256
      = p.length + 1 := by omega
  simp only [List.headD_cons, List.getD_cons_zero, List.getD_cons_succ, hword]
  have hnot : ¬ (XBEE_MAX_FRAME_DATA_SIZE < p.length + 1) := by
    simp only [XBEE_MAX_FRAME_DATA_SIZE]; omega
  rw [if_neg hnot]
  have hplen : p.length + 1 = (t % 256 :: p).length := by simp
  rw [hplen, uartRead_exact]
  simp only
  rw [uartRead_cons_one]
  simp only [List.headD_cons]
  have hsum : sum8 ((255 - (t % 256 + p.sum) % 256) :: (t % 256 :: p)) = 255 := by
    rw [sum8_eq_sum]
    simp only [List.sum_cons]
    omega
  rw [if_pos hsum]
  simp

/-! ## Device state (struct XBee with the fields used by xbee_lr.c), the
LR packet (XBeeLRPacket_t), and the AT command enumeration -/

/-- The LR packet `XBeeLRPacket_t`. `payloadSize` is a `uint8_t` in C, so
the lengths stored into it are reduced `% 256`; `rssi`/`snr` keep their
raw byte values. -/
structure XBeeLRPacket_t where
  port : Nat
  payloadSize : Nat
  payload : List Nat
  ack : Nat
  status : Nat
  frameId : Nat
  rssi : Nat
  snr : Nat
  dr : Nat
  counter : Nat
deriving DecidableEq, Repr

/-- The all-zero packet produced by `memset(packet, 0, sizeof ...)`. -/
def emptyLRPacket : XBeeLRPacket_t :=
  { port := 0, payloadSize := 0, payload := [], ack := 0, status := 0,
    frameId := 0, rssi := 0, snr := 0, dr := 0, counter := 0 }

/-- The `XBee` instance together with its environment: the frame-id
counter, the delivery-status byte and pending-status latch used by
`xbee_lr.c`, the scripted transport (`rxStream` to be read, `txBytes`
written so far, `uartWriteResult` the code `PortUartWrite` returns, `time`
the `PortMillis` clock advanced by `PortDelay`), and the two callback logs
recording each `OnReceiveCallback` / `OnSendCallback` invocation. -/
structure XBee where
  frameIdCntr : Nat
  delivery_status : Nat
  tx_status_received : Bool
  uartWriteResult : Int
  txBytes : List Nat
  rxStream : List Nat
  time : Nat
  receivedLog : List XBeeLRPacket_t
  sentLog : List XBeeLRPacket_t
deriving DecidableEq, Repr

/-- A fresh device: counter as set by `XBee_Init`, transport idle and
healthy. -/
def xbeeEmpty : XBee :=
  { frameIdCntr := 1, delivery_status := 0, tx_status_received := false,
    uartWriteResult := 0, txBytes := [], rxStream := [], time := 0,
    receivedLog := [], sentLog := [] }

/-- `XBee_Init` (xbee.c): sets the frame-id counter to 1 (the subclass
`init` only opens the uart). -/
def XBee_Init (st : XBee) : XBee :=
  { st with frameIdCntr := 1 }

/-- The frame-id counter update at the top of `api_send_frame`:
`self->frameIdCntr++` on a `uint8_t`, then `if (cntr == 0) cntr = 1`. -/
def nextFrameId (c : Nat) : Nat :=
  let c' := (c + 1) % 256
  if c' = 0 then 1 else c'

/-- `api_send_frame`: bumps the frame-id counter, builds the wire frame
and hands it to `PortUartWrite`; a nonzero write result becomes
`API_SEND_ERROR_UART_FAILURE`. The C function performs no size check on
`len` (its 256-byte stack buffer notwithstanding), so the full encoded
frame is always built and written. -/
def api_send_frame (st : XBee) (frame_type : Nat) (data : List Nat) : Int × XBee :=
  let st1 := { st with frameIdCntr := nextFrameId st.frameIdCntr,
                       txBytes := st.txBytes ++ encodeFrame frame_type data }
  if st.uartWriteResult ≠ 0 then (API_SEND_ERROR_UART_FAILURE, st1)
  else (API_SEND_SUCCESS, st1)

/-- `at_command_t` (xbee_at_cmds.h): every declared identifier. -/
inductive at_command_t where
  | AT_
  | AT_CN
  | AT_AP
  | AT_BD
  | AT_WR
  | AT_RE
  | AT_VR
  | AT_AC
  | AT_NR
  | AT_DE
  | AT_AK
  | AT_AE
  | AT_NK
  | AT_JS
  | AT_FQ
  | AT_PW
deriving DecidableEq, Repr

open at_command_t in
/-- `at_command_to_string` (xbee_at_cmds.c): the two ASCII bytes of the
mnemonic for the commands the switch handles, `none` for the C `NULL` of
its `default:` branch. -/
def at_command_to_string : at_command_t → Option (Nat × Nat)
  | AT_ => some (65, 84)    -- "AT"
  | AT_DE => some (68, 69)  -- "DE"
  | AT_FQ => some (70, 81)  -- "FQ"
  | AT_BD => some (66, 68)  -- "BD"
  | AT_AK => some (65, 75)  -- "AK"
  | AT_AE => some (65, 69)  -- "AE"
  | AT_NK => some (78, 75)  -- "NK"
  | AT_JS => some (74, 83)  -- "JS"
  | AT_WR => some (87, 82)  -- "WR"
  | AT_AC => some (65, 67)  -- "AC"
  | _ => none

/-- `api_send_at_command`: rejects `param_length > 128` (its own 128-byte
`frame_data` buffer; `param_length` is a `uint8_t`), then builds
`[frameIdCntr][mnemonic0][mnemonic1][parameter...]` and sends it as an
AT-command frame. The C code stores `cmd_str[0]`/`cmd_str[1]` into the
buffer before its `cmd_str == NULL` check, so the
`API_SEND_ERROR_INVALID_COMMAND` return is only reached after a null
dereference; the branch below models the intended check. -/
def api_send_at_command (st : XBee) (command : at_command_t)
    (parameter : List Nat) : Int × XBee :=
  if 128 < parameter.length then (API_SEND_ERROR_FRAME_TOO_LARGE, st)
  else
    match at_command_to_string command with
    | none => (API_SEND_ERROR_INVALID_COMMAND, st)
    | some c =>
      api_send_frame st XBEE_API_TYPE_AT_COMMAND
        (st.frameIdCntr :: c.1 :: c.2 :: parameter)

/-! ## LR frame handlers and dispatcher (xbee_lr.c, xbee_api_frames.c) -/

/-- `XBeeLR_Handle_Rx_Packet`: for an RX-packet frame, decodes the packet
(the explicit variant carries rssi/snr/data-rate and a 4-byte big-endian
downlink counter before the payload) and invokes `OnReceiveCallback` with
it, recorded by appending to `receivedLog`. `frame.length - 2` and
`frame.length - 9` are stored into the `uint8_t` `payloadSize`, hence the
`% 256` wraparound forms. -/
def XBeeLR_Handle_Rx_Packet (st : XBee) (frame : xbee_api_frame_t) : XBee :=
  if frame.type ≠ XBEE_API_TYPE_LR_RX_PACKET ∧
      frame.type ≠ XBEE_API_TYPE_LR_EXPLICIT_RX_PACKET then st
  else
    let packet : XBeeLRPacket_t :=
      if frame.type = XBEE_API_TYPE_LR_EXPLICIT_RX_PACKET then
        { emptyLRPacket with
            port := frame.data.getD 1 0,
            rssi := frame.data.getD 2 0,
            snr := frame.data.getD 3 0,
            dr := frame.data.getD 4 0,
            counter := frame.data.getD 5 0 * 2 ^ 24 + frame.data.getD 6 0 * 2 ^ 16
              + frame.data.getD 7 0 * 256 + frame.data.getD 8 0,
            payload := frame.data.drop 9,
            payloadSize := (frame.length + 247) % 256 }
      else
        { emptyLRPacket with
            port := frame.data.getD 1 0,
            payload := frame.data.drop 2,
            payloadSize := (frame.length + 254) % 256 }
    { st with receivedLog := st.receivedLog ++ [packet] }

/-- `XBeeLR_Handle_Transmit_Status`: for a TX-status frame, stores the
delivery-status byte `data[2]`, sets the `tx_status_received` latch, and
invokes `OnSendCallback`, recorded by appending to `sentLog`. -/
def XBeeLR_Handle_Transmit_Status (st : XBee) (frame : xbee_api_frame_t) : XBee :=
  if frame.type ≠ XBEE_API_TYPE_TX_STATUS then st
  else
    { st with delivery_status := frame.data.getD 2 0,
              tx_status_received := true,
              sentLog := st.sentLog ++
                [{ emptyLRPacket with frameId := frame.data.getD 1 0,
                                      status := frame.data.getD 2 0 }] }

/-- `api_handle_frame`: routes by frame type; the AT-response and
modem-status handlers only print, the LR vtable handlers are the two
above, anything else is logged and dropped. -/
def api_handle_frame (st : XBee) (frame : xbee_api_frame_t) : XBee :=
  if frame.type = XBEE_API_TYPE_AT_RESPONSE then st
  else if frame.type = XBEE_API_TYPE_MODEM_STATUS then st
  else if frame.type = XBEE_API_TYPE_TX_STATUS then
    XBeeLR_Handle_Transmit_Status st frame
  else if frame.type = XBEE_API_TYPE_LR_RX_PACKET ∨
      frame.type = XBEE_API_TYPE_LR_EXPLICIT_RX_PACKET then
    XBeeLR_Handle_Rx_Packet st frame
  else st

/-- `XBeeLR_Process`: one decode attempt; a successful frame is
dispatched, every error status only prints. -/
def XBeeLR_Process (st : XBee) : XBee :=
  let r := api_receive_api_frame st.rxStream
  let st1 := { st with rxStream := r.2.2 }
  if r.1 = 0 then
    match r.2.1 with
    | some frame => api_handle_frame st1 frame
    | none => st1
  else st1

/-! ## Command/response correlator (api_send_at_command_and_get_response) -/

/-- The wait loop of `api_send_at_command_and_get_response`. Result:
(status code, the value written to `*response_length` if any as a
`uint8_t`, the bytes copied to `response_buffer`, final state).
One iteration: attempt a decode; on success an AT-response frame sets
`*response_length = frame.length - 5` (a `uint8_t` store, so `% 256`,
written before the command-status test of `data[4]`) and returns success
or `API_SEND_AT_CMD_ERROR`; any other frame goes to `api_handle_frame`.
Then the elapsed `PortMillis` time is tested against `timeout_ms` and
`PortDelay(1)` advances the clock. The structural `fuel` only bounds the
recursion; it is instantiated with `timeout_ms + 1`, which the 1 ms delay
per iteration keeps from ever being exhausted before the timeout test
fires. -/
def at_cmd_response_loop (fuel start timeout_ms : Nat) (st : XBee) :
    Int × Option Nat × List Nat × XBee :=
  match fuel with
  | 0 => (API_SEND_AT_CMD_RESONSE_TIMEOUT, none, [], st)
  | Nat.succ fuel =>
    let r := api_receive_api_frame st.rxStream
    let st1 : XBee := { st with rxStream := r.2.2 }
    let atCase : Int × Option Nat × List Nat × XBee :=
      match r.2.1 with
      | some frame =>
        if frame.type = XBEE_API_TYPE_AT_RESPONSE then
          let respLen := (frame.length + 251) % 256
          if frame.data.getD 4 0 = 0 then
            (API_SEND_SUCCESS, some respLen, (frame.data.drop 5).take respLen, st1)
          else (API_SEND_AT_CMD_ERROR, some respLen, [], st1)
        else
          let st2 := api_handle_frame st1 frame
          if timeout_ms ≤ st2.time - start then
            (API_SEND_AT_CMD_RESONSE_TIMEOUT, none, [], st2)
          else at_cmd_response_loop fuel start timeout_ms
            { st2 with time := st2.time + 1 }
      | none =>
        if timeout_ms ≤ st1.time - start then
          (API_SEND_AT_CMD_RESONSE_TIMEOUT, none, [], st1)
        else at_cmd_response_loop fuel start timeout_ms
          { st1 with time := st1.time + 1 }
    if r.1 = 0 then atCase
    else
      if timeout_ms ≤ st1.time - start then
        (API_SEND_AT_CMD_RESONSE_TIMEOUT, none, [], st1)
      else at_cmd_response_loop fuel start timeout_ms
        { st1 with time := st1.time + 1 }

/-- `api_send_at_command_and_get_response`: sends the AT command (its
return code is discarded, as in the C), then waits as above; `start` is
the `PortMillis` value at loop entry. -/
def api_send_at_command_and_get_response (st : XBee) (command : at_command_t)
    (parameter : List Nat) (timeout_ms : Nat) :
    Int × Option Nat × List Nat × XBee :=
  let st1 := (api_send_at_command st command parameter).2
  at_cmd_response_loop (timeout_ms + 1) st1.time timeout_ms st1

/-! ## LR device operations (xbee_lr.c) -/

/-- `SendJoinReqApiFrame`: captures the current frame-id counter and sends
it as the single payload byte of a join-request frame. -/
def SendJoinReqApiFrame (st : XBee) : XBee :=
  let frame_id := st.frameIdCntr
  (api_send_frame st XBEE_API_TYPE_LR_JOIN_REQUEST [frame_id]).2

/-- The wait loop of `XBeeLR_SendData`:
`while ((millis - start) < timeout) { Process; if (latch) return status;
delay(10); }` followed by the `0xFF` timeout return. The `PortDelay(10)`
advances the clock by 10 each iteration, so instantiating `fuel` with
`timeout + 1` means the guard always fires before the fuel runs out; the
fuel-exhausted value coincides with the timeout return. -/
def sendData_loop (fuel start timeout : Nat) (st : XBee) : Nat × XBee :=
  match fuel with
  | 0 => (0xFF, st)
  | Nat.succ fuel =>
    if st.time - start < timeout then
      let st1 := XBeeLR_Process st
      if st1.tx_status_received then (st1.delivery_status, st1)
      else sendData_loop fuel start timeout { st1 with time := st1.time + 10 }
    else (0xFF, st)

/-- `XBeeLR_SendData`: builds `[frameIdCntr][port][ack & 1][payload...]`,
sends it as an LR TX-request, returns `false` (the `uint8_t` 0) if the
send failed, otherwise clears the `tx_status_received` latch and waits for
a TX-status frame, returning the captured delivery status or `0xFF` on
timeout. `SEND_DATA_TIMEOUT_MS` is not defined under src/, so the
configured timeout is passed as the `timeout` argument. -/
def XBeeLR_SendData (st : XBee) (packet : XBeeLRPacket_t) (timeout : Nat) :
    Nat × XBee :=
  let frame_data := st.frameIdCntr :: packet.port :: (packet.ack % 2) :: packet.payload
  let r := api_send_frame st XBEE_API_TYPE_LR_TX_REQUEST frame_data
  if r.1 ≠ API_SEND_SUCCESS then (0, r.2)
  else
    let st1 := { r.2 with tx_status_received := false }
    sendData_loop (timeout + 1) st1.time timeout st1

/-- A sequence of `api_send_frame` calls (type and payload each). -/
def sendSeq (st : XBee) : List (Nat × List Nat) → XBee
  | [] => st
  | f :: fs => sendSeq (api_send_frame st f.1 f.2).2 fs

/-! ## State-projection lemmas -/

theorem api_send_frame_state (st : XBee) (t : Nat) (d : List Nat) :
    (api_send_frame st t d).2 =
      { st with frameIdCntr := nextFrameId st.frameIdCntr,
                txBytes := st.txBytes ++ encodeFrame t d } := by
  simp only [api_send_frame]
  split <;> rfl

theorem api_send_at_command_preserves (st : XBee) (cmd : at_command_t)
    (param : List Nat) :
    (api_send_at_command st cmd param).2.rxStream = st.rxStream ∧
    (api_send_at_command st cmd param).2.time = st.time ∧
    (api_send_at_command st cmd param).2.receivedLog = st.receivedLog ∧
    (api_send_at_command st cmd param).2.sentLog = st.sentLog := by
  simp only [api_send_at_command]
  split
  · exact ⟨rfl, rfl, rfl, rfl⟩
  · match at_command_to_string cmd with
    | none => exact ⟨rfl, rfl, rfl, rfl⟩
    | some c => rw [api_send_frame_state]; exact ⟨rfl, rfl, rfl, rfl⟩

/-! ## Claim C1 -/

/-- C1: round-trip of the frame codec — for every frame type `t` and
payload `p` with `len(p) + 1 ≤ XBEE_MAX_FRAME_DATA_SIZE`, decoding the
bytes produced by `api_send_frame`'s encoder yields status 0 and a frame
with `type = t`, `length = len(p) + 1`, and data consisting of the type
byte followed by the original payload bytes. -/
theorem frame_codec_roundtrip (t : Nat) (p : List Nat) (ht : t < 256)
    (hp : ∀ b ∈ p, b < 256) (hlen : p.length + 1 ≤ XBEE_MAX_FRAME_DATA_SIZE) :
    api_receive_api_frame (encodeFrame t p) =
      (0, some { type := t, length := p.length + 1,
                 checksum := 255 - (t + p.sum) % 256, data := t :: p }, []) := by
  have h := api_receive_encode t p [] hlen
  rw [List.append_nil] at h
  rw [h, Nat.mod_eq_of_lt ht]

theorem frame_codec_roundtrip_witness :
    api_receive_api_frame (encodeFrame 0x14 [1, 2]) =
      (0, some { type := 0x14, length := 3, checksum := 232,
                 data := [0x14, 1, 2] }, []) :=
  frame_codec_roundtrip 0x14 [1, 2] (by decide) (by decide) (by decide)

/-! ## Claim C2 -/

/-- C2: end-to-end wire-format scenario — with the frame-id counter at 1,
`SendJoinReqApiFrame` writes exactly `7E 00 02 14 01 EA` to the transport,
and decoding exactly those six bytes yields a frame with type `0x14`,
length 2 and payload byte `0x01`. -/
theorem join_request_wire_scenario :
    (SendJoinReqApiFrame xbeeEmpty).txBytes = [0x7E, 0x00, 0x02, 0x14, 0x01, 0xEA] ∧
    api_receive_api_frame [0x7E, 0x00, 0x02, 0x14, 0x01, 0xEA] =
      (0, some { type := 0x14, length := 2, checksum := 0xEA,
                 data := [0x14, 0x01] }, []) := by
  decide

/-! ## Claim C5 -/

/-- C5: oversize rejection on decoding — a stream whose two length-header
bytes advertise a length above `XBEE_MAX_FRAME_DATA_SIZE` makes
`api_receive_api_frame` return -5 having consumed exactly the start
delimiter and the two length bytes: the rest of the stream is returned
untouched, no further transport read happens. -/
theorem oversize_decode_rejected (b1 b2 : Nat) (rest : List Nat)
    (hb1 : b1 < 256) (hb2 : b2 < 256)
    (hlen : XBEE_MAX_FRAME_DATA_SIZE < b1 * 256 + b2) :
    api_receive_api_frame (0x7E :: b1 :: b2 :: rest) = (-5, none, rest) := by
  rw [api_receive_api_frame, uartRead_cons_one]
  simp only [List.headD_cons, if_pos rfl]
  rw [uartRead_cons_two]
  simp only [List.headD_cons, List.getD_cons_zero, List.getD_cons_succ]
  rw [if_pos hlen]
  simp

theorem oversize_decode_rejected_witness :
    api_receive_api_frame [0x7E, 1, 1, 0xAB, 0xCD] = (-5, none, [0xAB, 0xCD]) :=
  oversize_decode_rejected 1 1 [0xAB, 0xCD] (by decide) (by decide) (by decide)

/-! ## Claim C3 (code bug) -/

/-- C3 as stated fails on the code: `api_send_frame` contains no size
check at all. For a 256-byte payload (`len + 1 = 257 >
XBEE_MAX_FRAME_DATA_SIZE`) it returns `API_SEND_SUCCESS`, not
`API_SEND_ERROR_FRAME_TOO_LARGE`, and hands the full 261-byte encoded
frame to the transport — in the C this overflows the function's 256-byte
stack buffer. (`api_send_at_command` checks only its own 128-byte
parameter buffer.) -/
theorem api_send_frame_oversize_not_rejected :
    XBEE_MAX_FRAME_DATA_SIZE < (List.replicate 256 0).length + 1 ∧
    (api_send_frame xbeeEmpty XBEE_API_TYPE_TX_REQUEST (List.replicate 256 0)).1
      = API_SEND_SUCCESS ∧
    API_SEND_SUCCESS ≠ API_SEND_ERROR_FRAME_TOO_LARGE ∧
    (api_send_frame xbeeEmpty XBEE_API_TYPE_TX_REQUEST (List.replicate 256 0)).2.txBytes
      = encodeFrame XBEE_API_TYPE_TX_REQUEST (List.replicate 256 0) ∧
    (encodeFrame XBEE_API_TYPE_TX_REQUEST (List.replicate 256 0)).length = 261 := by
  decide

/-! ## Claim C4 (code bug) -/

/-- C4 as stated fails on the code: `at_command_to_string` is not total on
the declared `at_command_t` enumeration — six declared identifiers fall
into the `default: return NULL` branch (and `api_send_at_command` reads
`cmd_str[0]` and `cmd_str[1]` before its `cmd_str == NULL` check, so the
`API_SEND_ERROR_INVALID_COMMAND` signalling is reached only after a null
dereference). -/
theorem at_command_map_not_total :
    at_command_to_string at_command_t.AT_CN = none ∧
    at_command_to_string at_command_t.AT_AP = none ∧
    at_command_to_string at_command_t.AT_RE = none ∧
    at_command_to_string at_command_t.AT_VR = none ∧
    at_command_to_string at_command_t.AT_NR = none ∧
    at_command_to_string at_command_t.AT_PW = none := by
  decide

/-! ## Claim C8 -/

theorem nextFrameId_ne_zero (c : Nat) : nextFrameId c ≠ 0 := by
  unfold nextFrameId
  dsimp only
  split
  · omega
  · omega

theorem sendSeq_frameIdCntr (fs : List (Nat × List Nat)) : ∀ st : XBee,
    (sendSeq st fs).frameIdCntr = Nat.iterate nextFrameId fs.length st.frameIdCntr := by
  induction fs with
  | nil => intro st; rfl
  | cons f fs ih =>
    intro st
    show (sendSeq (api_send_frame st f.1 f.2).2 fs).frameIdCntr = _
    rw [ih, api_send_frame_state]
    simp [Function.iterate_succ_apply]

/-- C8: frame-id counter invariant — starting from `XBee_Init` (counter
set to 1), after any sequence of `api_send_frame` calls the counter is
never 0; the increment wraps 0 back to 1 (`nextFrameId 255 = 1`); after
exactly 255 consecutive sends the counter is back at 1 (so it never
emitted 0); and a join request built at any such point places the current
(nonzero) counter as the frame-id byte of the outgoing frame. -/
theorem frame_id_never_zero :
    (∀ (st : XBee) (fs : List (Nat × List Nat)),
      (sendSeq (XBee_Init st) fs).frameIdCntr ≠ 0) ∧
    nextFrameId 255 = 1 ∧
    (∀ (st : XBee) (fs : List (Nat × List Nat)), fs.length = 255 →
      (sendSeq (XBee_Init st) fs).frameIdCntr = 1) ∧
    (∀ (st : XBee) (fs : List (Nat × List Nat)),
      (SendJoinReqApiFrame (sendSeq (XBee_Init st) fs)).txBytes
        = (sendSeq (XBee_Init st) fs).txBytes
          ++ encodeFrame XBEE_API_TYPE_LR_JOIN_REQUEST
              [(sendSeq (XBee_Init st) fs).frameIdCntr]) := by
  refine ⟨?_, by decide, ?_, ?_⟩
  · intro st fs
    rw [sendSeq_frameIdCntr]
    show Nat.iterate nextFrameId fs.length (XBee_Init st).frameIdCntr ≠ 0
    cases h : fs.length with
    | zero => simp [XBee_Init]
    | succ n =>
      rw [Function.iterate_succ_apply']
      exact nextFrameId_ne_zero _
  · intro st fs h
    rw [sendSeq_frameIdCntr, h]
    show Nat.iterate nextFrameId 255 (1 : Nat) = 1
    decide
  · intro st fs
    show (api_send_frame _ _ _).2.txBytes = _
    rw [api_send_frame_state]

theorem frame_id_never_zero_witness :
    (sendSeq (XBee_Init xbeeEmpty) (List.replicate 255 (0x50, ([] : List Nat)))).frameIdCntr
      = 1 :=
  frame_id_never_zero.2.2.1 xbeeEmpty _ (by simp)

/-! ## Claim C9 -/

/-- First loop iteration on a stream that starts with an AT-response
frame: the response length `frame.length - 5` is written (as a `uint8_t`)
and the loop returns, with success or a command error according to the
command-status byte `data[4]`. -/
theorem at_cmd_loop_first_at_response (fuel start timeout : Nat) (st : XBee)
    (p rest : List Nat) (hlen : p.length + 1 ≤ 256)
    (hrx : st.rxStream = encodeFrame XBEE_API_TYPE_AT_RESPONSE p ++ rest) :
    at_cmd_response_loop (fuel + 1) start timeout st =
      if p.getD 3 0 = 0 then
        (API_SEND_SUCCESS, some ((p.length + 252) % 256),
          (p.drop 4).take ((p.length + 252) % 256), { st with rxStream := rest })
      else
        (API_SEND_AT_CMD_ERROR, some ((p.length + 252) % 256), [],
          { st with rxStream := rest }) := by
  simp only [at_cmd_response_loop]
  rw [hrx, api_receive_encode _ _ _ hlen]
  norm_num [XBEE_API_TYPE_AT_RESPONSE]

/-- C9: AT-response payload-length arithmetic — whenever the correlator
decodes and accepts an AT-response frame (wire payload `p`, so
`frame.length = len(p) + 1`), it stores exactly
`(frame.length - 5) mod 256` into `*response_length` (here
`(len(p) + 1 + 251) % 256`, the `uint8_t` store of `frame.length - 5`);
a frame with `length < 5` therefore wraps modulo 256 (length 4 yields
255, see the witness) instead of being rejected or clamped to 0. -/
theorem at_response_length_arithmetic (st : XBee) (cmd : at_command_t)
    (param p rest : List Nat) (timeout : Nat)
    (hlen : p.length + 1 ≤ 256)
    (hstream : st.rxStream = encodeFrame XBEE_API_TYPE_AT_RESPONSE p ++ rest) :
    (api_send_at_command_and_get_response st cmd param timeout).2.1
      = some ((p.length + 1 + 251) % 256) := by
  unfold api_send_at_command_and_get_response
  have hrx : (api_send_at_command st cmd param).2.rxStream
      = encodeFrame XBEE_API_TYPE_AT_RESPONSE p ++ rest := by
    rw [(api_send_at_command_preserves st cmd param).1, hstream]
  rw [at_cmd_loop_first_at_response timeout _ timeout _ p rest hlen hrx]
  split <;> norm_num

theorem at_response_length_arithmetic_witness :
    (api_send_at_command_and_get_response
        { xbeeEmpty with rxStream := encodeFrame XBEE_API_TYPE_AT_RESPONSE [1, 2, 3] }
        at_command_t.AT_JS [] 5000).2.1 = some 255 :=
  at_response_length_arithmetic _ at_command_t.AT_JS [] [1, 2, 3] [] 5000
    (by decide) (by decide)

/-! ## Claim C6 -/

theorem api_handle_frame_time (st : XBee) (f : xbee_api_frame_t) :
    (api_handle_frame st f).time = st.time := by
  unfold api_handle_frame XBeeLR_Handle_Transmit_Status XBeeLR_Handle_Rx_Packet
  repeat' split
  all_goals rfl

theorem api_handle_frame_rxStream (st : XBee) (f : xbee_api_frame_t) :
    (api_handle_frame st f).rxStream = st.rxStream := by
  unfold api_handle_frame XBeeLR_Handle_Transmit_Status XBeeLR_Handle_Rx_Packet
  repeat' split
  all_goals rfl

/-- One wait-loop iteration that decodes a non-AT-response frame: the
frame is dispatched through `api_handle_frame` and, the timeout not yet
elapsed, the loop continues after the 1 ms delay. -/
theorem at_cmd_loop_step_dispatch (fuel start timeout : Nat) (st : XBee)
    (t : Nat) (q rest : List Nat)
    (hql : q.length + 1 ≤ 256)
    (hrx : st.rxStream = encodeFrame t q ++ rest)
    (ht : ¬ (t % 256 = XBEE_API_TYPE_AT_RESPONSE))
    (hguard : st.time - start < timeout) :
    at_cmd_response_loop (fuel + 1) start timeout st =
      at_cmd_response_loop fuel start timeout
        { api_handle_frame { st with rxStream := rest }
            { type := t % 256, length := q.length + 1,
              checksum := 255 - (t % 256 + q.sum) % 256, data := t % 256 :: q }
          with time := st.time + 1 } := by
  simp only [at_cmd_response_loop]
  rw [hrx, api_receive_encode _ _ _ hql]
  simp only [if_neg ht, api_handle_frame_time]
  have : ¬ (timeout ≤ st.time - start) := by omega
  simp only [this, if_false, if_true, ite_true, ite_false, reduceIte]

/-- C6: correlator dispatch-while-waiting — if, during
`api_send_at_command_and_get_response`'s wait loop, the transport first
delivers a well-formed RX-packet frame (type `XBEE_API_TYPE_LR_RX_PACKET`
or `XBEE_API_TYPE_LR_EXPLICIT_RX_PACKET`, wire payload `q`) and then a
well-formed AT-response frame with command-status 0 (payload `p`,
`p.getD 3 0 = 0` being `data[4]`), the function returns
`API_SEND_SUCCESS` for the AT response, and `OnReceiveCallback` has been
invoked exactly once, with the RX packet decoded exactly as
`XBeeLR_Handle_Rx_Packet` decodes it (plain or explicit layout). -/
theorem correlator_dispatch_while_waiting (st : XBee) (cmd : at_command_t)
    (param q p : List Nat) (timeout t : Nat)
    (htype : t = XBEE_API_TYPE_LR_RX_PACKET ∨ t = XBEE_API_TYPE_LR_EXPLICIT_RX_PACKET)
    (hq : q ≠ []) (hql : q.length + 1 ≤ 256) (hpl : p.length + 1 ≤ 256)
    (hstatus : p.getD 3 0 = 0) (htimeout : 1 ≤ timeout)
    (hstream : st.rxStream = encodeFrame t q ++ encodeFrame XBEE_API_TYPE_AT_RESPONSE p) :
    (api_send_at_command_and_get_response st cmd param timeout).1 = API_SEND_SUCCESS ∧
    (api_send_at_command_and_get_response st cmd param timeout).2.2.2.receivedLog
      = st.receivedLog ++
        [if t = XBEE_API_TYPE_LR_EXPLICIT_RX_PACKET then
            { emptyLRPacket with
                port := q.getD 0 0, rssi := q.getD 1 0, snr := q.getD 2 0,
                dr := q.getD 3 0,
                counter := q.getD 4 0 * 2 ^ 24 + q.getD 5 0 * 2 ^ 16
                  + q.getD 6 0 * 256 + q.getD 7 0,
                payload := q.drop 8, payloadSize := (q.length + 248) % 256 }
          else
            { emptyLRPacket with
                port := q.getD 0 0, payload := q.drop 1,
                payloadSize := (q.length + 255) % 256 }] := by
  have hpre := api_send_at_command_preserves st cmd param
  obtain ⟨k, rfl⟩ : ∃ k, timeout = k + 1 := ⟨timeout - 1, by omega⟩
  unfold api_send_at_command_and_get_response
  rcases htype with rfl | rfl
  · rw [at_cmd_loop_step_dispatch (k + 1) _ (k + 1) _ XBEE_API_TYPE_LR_RX_PACKET q
      (encodeFrame XBEE_API_TYPE_AT_RESPONSE p) hql (by rw [hpre.1, hstream])
      (by decide) (by rw [hpre.2.1]; omega)]
    simp only [api_handle_frame, XBeeLR_Handle_Rx_Packet, XBEE_API_TYPE_AT_RESPONSE,
      XBEE_API_TYPE_MODEM_STATUS, XBEE_API_TYPE_TX_STATUS, XBEE_API_TYPE_LR_RX_PACKET,
      XBEE_API_TYPE_LR_EXPLICIT_RX_PACKET]
    norm_num
    rw [at_cmd_loop_first_at_response k _ (k + 1) _ p []
      (by omega) (by simp [XBEE_API_TYPE_AT_RESPONSE])]
    rw [if_pos hstatus]
    refine ⟨rfl, ?_⟩
    simp only [List.getD_cons_succ, List.getD_cons_zero, List.drop_succ_cons,
      List.drop_zero]
    rw [hpre.2.2.1]
  · rw [at_cmd_loop_step_dispatch (k + 1) _ (k + 1) _ XBEE_API_TYPE_LR_EXPLICIT_RX_PACKET q
      (encodeFrame XBEE_API_TYPE_AT_RESPONSE p) hql (by rw [hpre.1, hstream])
      (by decide) (by rw [hpre.2.1]; omega)]
    simp only [api_handle_frame, XBeeLR_Handle_Rx_Packet, XBEE_API_TYPE_AT_RESPONSE,
      XBEE_API_TYPE_MODEM_STATUS, XBEE_API_TYPE_TX_STATUS, XBEE_API_TYPE_LR_RX_PACKET,
      XBEE_API_TYPE_LR_EXPLICIT_RX_PACKET]
    norm_num
    rw [at_cmd_loop_first_at_response k _ (k + 1) _ p []
      (by omega) (by simp [XBEE_API_TYPE_AT_RESPONSE])]
    rw [if_pos hstatus]
    refine ⟨rfl, ?_⟩
    simp only [List.getD_cons_succ, List.getD_cons_zero, List.drop_succ_cons,
      List.drop_zero]
    rw [hpre.2.2.1]

theorem correlator_dispatch_while_waiting_witness :
    (api_send_at_command_and_get_response
        { xbeeEmpty with rxStream := encodeFrame XBEE_API_TYPE_LR_RX_PACKET [7, 8, 9]
            ++ encodeFrame XBEE_API_TYPE_AT_RESPONSE [1, 2, 3, 0, 42] }
        at_command_t.AT_JS [] 5000).1 = API_SEND_SUCCESS ∧
    (api_send_at_command_and_get_response
        { xbeeEmpty with rxStream := encodeFrame XBEE_API_TYPE_LR_RX_PACKET [7, 8, 9]
            ++ encodeFrame XBEE_API_TYPE_AT_RESPONSE [1, 2, 3, 0, 42] }
        at_command_t.AT_JS [] 5000).2.2.2.receivedLog =
      [{ port := 7, payloadSize := 2, payload := [8, 9], ack := 0, status := 0,
         frameId := 0, rssi := 0, snr := 0, dr := 0, counter := 0 }] := by
  have h := correlator_dispatch_while_waiting
      { xbeeEmpty with rxStream := encodeFrame XBEE_API_TYPE_LR_RX_PACKET [7, 8, 9]
          ++ encodeFrame XBEE_API_TYPE_AT_RESPONSE [1, 2, 3, 0, 42] }
      at_command_t.AT_JS [] [7, 8, 9] [1, 2, 3, 0, 42] 5000 XBEE_API_TYPE_LR_RX_PACKET
      (Or.inl rfl) (by decide) (by decide) (by decide) (by decide) (by decide) rfl
  simpa [XBEE_API_TYPE_LR_RX_PACKET, XBEE_API_TYPE_LR_EXPLICIT_RX_PACKET,
    emptyLRPacket, xbeeEmpty] using h

/-! ## Claim C7 -/

/-- `XBeeLR_Process` only ever appends to the send-callback log, and if it
appended nothing then it did not touch the `tx_status_received` latch
(`XBeeLR_Handle_Transmit_Status`, the only latch setter, always appends
one `OnSendCallback` record). -/
theorem XBeeLR_Process_sentLog_latch (st : XBee) :
    (∃ l, (XBeeLR_Process st).sentLog = st.sentLog ++ l) ∧
    ((XBeeLR_Process st).sentLog = st.sentLog →
      (XBeeLR_Process st).tx_status_received = st.tx_status_received) := by
  simp only [XBeeLR_Process, api_handle_frame, XBeeLR_Handle_Transmit_Status,
    XBeeLR_Handle_Rx_Packet]
  repeat' split
  all_goals first
    | exact ⟨⟨[], by simp⟩, fun _ => rfl⟩
    | refine ⟨⟨_, rfl⟩, fun h => absurd h (by simp)⟩

theorem sendData_loop_sentLog_mono (fuel : Nat) : ∀ start timeout (st : XBee),
    ∃ l, (sendData_loop fuel start timeout st).2.sentLog = st.sentLog ++ l := by
  induction fuel with
  | zero => intro start timeout st; exact ⟨[], by simp [sendData_loop]⟩
  | succ fuel ih =>
    intro start timeout st
    simp only [sendData_loop]
    split
    · split
      · exact (XBeeLR_Process_sentLog_latch st).1
      · obtain ⟨l1, h1⟩ := (XBeeLR_Process_sentLog_latch st).1
        obtain ⟨l2, h2⟩ := ih start timeout
          { XBeeLR_Process st with time := (XBeeLR_Process st).time + 10 }
        refine ⟨l1 ++ l2, ?_⟩
        rw [h2]
        show (XBeeLR_Process st).sentLog ++ l2 = _
        rw [h1, List.append_assoc]
    · exact ⟨[], by simp⟩

/-- If the wait loop of `XBeeLR_SendData` starts with the latch clear and
ends with no send-callback fired (no TX-status frame was decoded during
the wait), it returns the `0xFF` timeout sentinel with the latch still
clear. -/
theorem sendData_loop_timeout (fuel : Nat) : ∀ start timeout (st : XBee),
    st.tx_status_received = false →
    (sendData_loop fuel start timeout st).2.sentLog = st.sentLog →
    (sendData_loop fuel start timeout st).1 = 0xFF ∧
    (sendData_loop fuel start timeout st).2.tx_status_received = false := by
  induction fuel with
  | zero => intro _ _ st h _; exact ⟨rfl, h⟩
  | succ fuel ih =>
    intro start timeout st hlatch hlog
    simp only [sendData_loop] at hlog ⊢
    by_cases hg : st.time - start < timeout
    · rw [if_pos hg] at hlog ⊢
      by_cases hl : (XBeeLR_Process st).tx_status_received
      · rw [if_pos hl] at hlog ⊢
        have hsame := (XBeeLR_Process_sentLog_latch st).2 hlog
        rw [hlatch] at hsame
        rw [hsame] at hl
        exact absurd hl (by simp)
      · rw [if_neg hl] at hlog ⊢
        obtain ⟨l1, h1⟩ := (XBeeLR_Process_sentLog_latch st).1
        obtain ⟨l2, h2⟩ := sendData_loop_sentLog_mono fuel start timeout
          { XBeeLR_Process st with time := (XBeeLR_Process st).time + 10 }
        have hst' : ({ XBeeLR_Process st with
            time := (XBeeLR_Process st).time + 10 } : XBee).sentLog
            = (XBeeLR_Process st).sentLog := rfl
        rw [h2, hst', h1, List.append_assoc] at hlog
        have hnil : l1 ++ l2 = [] := by
          have hlog' : st.sentLog ++ (l1 ++ l2) = st.sentLog ++ [] := by
            rw [List.append_nil]; exact hlog
          exact List.append_cancel_left hlog'
        obtain ⟨hl1, hl2⟩ := List.append_eq_nil.mp hnil
        have hlatch' : ({ XBeeLR_Process st with
            time := (XBeeLR_Process st).time + 10 } : XBee).tx_status_received = false := by
          show (XBeeLR_Process st).tx_status_received = false
          simpa using hl
        have hlog2 : (sendData_loop fuel start timeout
            { XBeeLR_Process st with time := (XBeeLR_Process st).time + 10 }).2.sentLog
            = ({ XBeeLR_Process st with
                time := (XBeeLR_Process st).time + 10 } : XBee).sentLog := by
          rw [h2, hl2, List.append_nil]
        exact ih start timeout _ hlatch' hlog2
    · rw [if_neg hg] at hlog ⊢
      exact ⟨rfl, hlatch⟩

/-- C7: send timeout behaviour — when the transport write succeeds and no
TX-status frame is decoded within the configured send timeout (the
TX-status handler, which alone sets the latch and fires `OnSendCallback`,
never ran: the send-callback log is unchanged), `XBeeLR_SendData` returns
the `0xFF` timeout sentinel and the `tx_status_received` latch is false
when it returns, so the next send cannot act on a stale status. -/
theorem send_timeout_returns_sentinel (st : XBee) (packet : XBeeLRPacket_t)
    (timeout : Nat) (huart : st.uartWriteResult = 0)
    (hnotx : (XBeeLR_SendData st packet timeout).2.sentLog = st.sentLog) :
    (XBeeLR_SendData st packet timeout).1 = 0xFF ∧
    (XBeeLR_SendData st packet timeout).2.tx_status_received = false := by
  unfold XBeeLR_SendData at hnotx ⊢
  simp only [api_send_frame, huart, ne_eq, not_true_eq_false, if_false,
    ite_false, reduceIte] at hnotx ⊢
  exact sendData_loop_timeout _ _ _ _ rfl hnotx

theorem send_timeout_returns_sentinel_witness :
    (XBeeLR_SendData xbeeEmpty emptyLRPacket 20).1 = 0xFF ∧
    (XBeeLR_SendData xbeeEmpty emptyLRPacket 20).2.tx_status_received = false :=
  send_timeout_returns_sentinel xbeeEmpty emptyLRPacket 20 (by decide) (by decide)

/-! ## Claim C10 -/

/-- C10: failure-value collision in `XBeeLR_SendData` — whenever the
transport write of the TX-request frame fails (`PortUartWrite` nonzero, so
`api_send_frame` returns `API_SEND_ERROR_UART_FAILURE`), the function
returns 0 (`return false`), the very value a successful run returns for an
acknowledged delivery with status byte 0 (second and third conjuncts show
such a run), while the timeout sentinel is the distinct `0xFF`; the return
value alone cannot separate a write failure from a successful delivery. -/
theorem senddata_uart_failure_returns_zero :
    (∀ (st : XBee) (packet : XBeeLRPacket_t) (timeout : Nat),
      st.uartWriteResult ≠ 0 → (XBeeLR_SendData st packet timeout).1 = 0) ∧
    (XBeeLR_SendData { xbeeEmpty with
        rxStream := encodeFrame XBEE_API_TYPE_TX_STATUS [1, 0] }
      emptyLRPacket 100).1 = 0 ∧
    (XBeeLR_SendData { xbeeEmpty with
        rxStream := encodeFrame XBEE_API_TYPE_TX_STATUS [1, 0] }
      emptyLRPacket 100).2.delivery_status = 0 ∧
    (0 : Nat) ≠ 0xFF := by
  refine ⟨?_, by decide, by decide, by decide⟩
  intro st packet timeout h
  unfold XBeeLR_SendData
  simp only [api_send_frame, h, ne_eq, ite_true, if_true, reduceIte]
  norm_num [API_SEND_ERROR_UART_FAILURE, API_SEND_SUCCESS]

theorem senddata_uart_failure_returns_zero_witness :
    (XBeeLR_SendData { xbeeEmpty with uartWriteResult := 1 } emptyLRPacket 10).1 = 0 :=
  senddata_uart_failure_returns_zero.1 _ _ _ (by decide)
